import Mathlib

/-!
Verification of the conversation session engine (ChatbotService) and the
authenticated-fetch wrapper (AuthService) of the agent-hub repository.

The TypeScript sources are shallowly embedded: Immutable.js records become
structures, Immutable.Map becomes an association list with first-occurrence
keys, Immutable.List becomes List, Date values become Nat timestamps, and
each async operation becomes a pure function of the pre-state and the
outcome of its network call.  A thrown TypeError (from a non-null
assertion on a missing map entry) is modelled as a distinguished result.
-/

/-- Attachment descriptor, from the FileUploaded interface of the model. -/
structure FileUploaded where
  id : String
  name : String
  uploaded_at : String
deriving DecidableEq, Repr

/-- The Query record of the model (queryRecord defaults: empty strings,
epoch date, empty attachment list, null status and errorMessage). -/
structure Query where
  id : String := ""
  chatId : String := ""
  message : String := ""
  response : String := ""
  createdAt : Nat := 0
  filesUploaded : List FileUploaded := []
  status : Option String := none
  errorMessage : Option String := none
deriving DecidableEq, Repr

/-- Modelled from the spec: the Chat record itself is not under src (only
its callers and the wire mapper are), so its fields follow section 3 of the
spec and the mapper mapChat: id, name, createdAt, updatedAt, a running
totalQueries counter and the ordered query list. -/
structure Chat where
  id : String := ""
  name : String := ""
  createdAt : Nat := 0
  updatedAt : Nat := 0
  totalQueries : Int := 0
  queries : List Query := []
deriving DecidableEq, Repr

/-- State of the chat list, from the ItemState type of ChatbotService. -/
inductive ItemState where
  | null
  | loading
  | loaded
deriving DecidableEq, Repr

/-- Lookup in an association-list model of Immutable.Map (first matching
key wins; our operations keep keys unique). -/
def mapGet {β : Type} : List (String × β) → String → Option β
  | [], _ => none
  | p :: rest, k => if p.1 = k then some p.2 else mapGet rest k

/-- Immutable.Map.set: replace the entry in place if the key is present,
otherwise append the new entry. -/
def mapSet {β : Type} : List (String × β) → String → β → List (String × β)
  | [], k, v => [(k, v)]
  | p :: rest, k, v => if p.1 = k then (k, v) :: rest else p :: mapSet rest k v

/-- Immutable.Map.delete: drop the entry with the given key. -/
def mapDelete {β : Type} (m : List (String × β)) (k : String) : List (String × β) :=
  m.filter (fun p => !(p.1 == k))

/-- Immutable.Map.concat: merge the second map into the first, entries of
the second overriding on key collision. -/
def mapConcat {β : Type} (m m2 : List (String × β)) : List (String × β) :=
  m2.foldl (fun acc p => mapSet acc p.1 p.2) m

/-- The in-memory state owned by ChatbotService: the chat map, the list
state flag, the per-chat pagination cursors, the temp chat and the
lastUsedChat marker. -/
structure EngineState where
  chats : List (String × Chat) := []
  chatsState : ItemState := ItemState.null
  chatsPages : List (String × Nat) := []
  tempChat : Option Chat := none
  lastUsedChat : String := ""
deriving DecidableEq, Repr

/-- The inline deduplication filter of ChatbotService, literally
updatedQueries.filter((query, index, self) =>
index === self.findIndex(q => q.id === query.id)). -/
def dedupById (l : List Query) : List Query :=
  (l.enum.filter (fun p => l.findIdx (fun q => q.id == p.2.id) == p.1)).map Prod.snd

lemma dedupById_sublist (l : List Query) : (dedupById l).Sublist l := by
  have h := (List.filter_sublist (p := fun p : Nat × Query =>
    l.findIdx (fun q => q.id == p.2.id) == p.1) l.enum).map Prod.snd
  rwa [List.enum_eq_enumFrom, List.enumFrom_map_snd] at h

lemma mem_dedupById {l : List Query} {q : Query} :
    q ∈ dedupById l ↔ ∃ i, l[i]? = some q ∧ l.findIdx (fun r => r.id == q.id) = i := by
  constructor
  · intro h
    obtain ⟨p, hp, hsnd⟩ := List.mem_map.mp h
    obtain ⟨hmem, hcond⟩ := List.mem_filter.mp hp
    refine ⟨p.1, ?_, ?_⟩
    · have := List.mem_enum_iff_getElem?.mp hmem
      rw [hsnd] at this
      exact this
    · have hc : l.findIdx (fun q => q.id == p.2.id) = p.1 := by
        simpa using hcond
      rw [hsnd] at hc
      exact hc
  · rintro ⟨i, hget, hidx⟩
    refine List.mem_map.mpr ⟨(i, q), List.mem_filter.mpr ⟨?_, ?_⟩, rfl⟩
    · exact List.mem_enum_iff_getElem?.mpr hget
    · simpa using hidx

lemma enumFrom_pairwise_fst_lt {α : Type} :
    ∀ (n : Nat) (l : List α), (l.enumFrom n).Pairwise (fun a b => a.1 < b.1)
  | _, [] => List.Pairwise.nil
  | n, x :: l => by
    rw [List.enumFrom_cons]
    refine List.Pairwise.cons ?_ (enumFrom_pairwise_fst_lt (n + 1) l)
    rintro ⟨i, y⟩ hmem
    have := List.le_fst_of_mem_enumFrom hmem
    omega

lemma enum_pairwise_fst_lt {α : Type} (l : List α) :
    l.enum.Pairwise (fun a b => a.1 < b.1) := by
  rw [List.enum_eq_enumFrom]
  exact enumFrom_pairwise_fst_lt 0 l

lemma dedupById_nodup_ids (l : List Query) :
    ((dedupById l).map Query.id).Nodup := by
  unfold dedupById
  rw [List.map_map]
  have hfilter := (enum_pairwise_fst_lt l).filter
    (fun p => l.findIdx (fun q => q.id == p.2.id) == p.1)
  have hpw : (l.enum.filter
      (fun p => l.findIdx (fun q => q.id == p.2.id) == p.1)).Pairwise
      (fun a b : Nat × Query => a.2.id ≠ b.2.id) := by
    refine hfilter.imp_of_mem ?_
    intro a b ha hb hlt
    have hca : l.findIdx (fun q => q.id == a.2.id) = a.1 := by
      simpa using (List.mem_filter.mp ha).2
    have hcb : l.findIdx (fun q => q.id == b.2.id) = b.1 := by
      simpa using (List.mem_filter.mp hb).2
    intro heq
    rw [heq] at hca
    rw [hca] at hcb
    omega
  exact List.Pairwise.map _ (fun a b h => h) hpw

lemma dedupById_first_occurrence {l : List Query} {q : Query}
    (h : q ∈ dedupById l) :
    l[l.findIdx (fun r => r.id == q.id)]? = some q := by
  obtain ⟨i, hget, hidx⟩ := mem_dedupById.mp h
  rw [hidx]
  exact hget

lemma dedupById_id_surjective {l : List Query} {q : Query} (h : q ∈ l) :
    ∃ q2 ∈ dedupById l, q2.id = q.id := by
  have hex : ∃ x ∈ l, (fun r : Query => r.id == q.id) x := by
    exact ⟨q, h, by simp⟩
  have hlt : l.findIdx (fun r => r.id == q.id) < l.length :=
    List.findIdx_lt_length_of_exists hex
  set i := l.findIdx (fun r => r.id == q.id) with hi
  have hsat : (l[i]).id == q.id := List.findIdx_getElem (w := hlt)
  have hqid : (l[i]).id = q.id := by simpa using hsat
  refine ⟨l[i], ?_, hqid⟩
  refine mem_dedupById.mpr ⟨i, List.getElem?_eq_getElem hlt, ?_⟩
  have hfun : (fun r : Query => r.id == (l[i]).id)
      = (fun r : Query => r.id == q.id) := by
    funext r
    rw [hqid]
  rw [hfun]

lemma nodup_ids_findIdx {l : List Query} (hnd : (l.map Query.id).Nodup)
    {i : Nat} (hlt : i < l.length) :
    l.findIdx (fun r => r.id == (l[i]).id) = i := by
  rw [List.findIdx_eq hlt]
  constructor
  · simp
  · intro j hji
    have hj : j < l.length := Nat.lt_trans hji hlt
    have hne : (l[j]).id ≠ (l[i]).id := by
      have hpw : (l.map Query.id).Pairwise (fun a b => a ≠ b) := hnd
      have := (List.pairwise_iff_get.mp hpw)
        ⟨j, by simpa using hj⟩ ⟨i, by simpa using hlt⟩ (by simpa using hji)
      simpa using this
    simpa using hne

lemma dedupById_eq_self {l : List Query} (hnd : (l.map Query.id).Nodup) :
    dedupById l = l := by
  unfold dedupById
  have hall : ∀ p ∈ l.enum,
      (fun p : Nat × Query => l.findIdx (fun q => q.id == p.2.id) == p.1) p := by
    rintro ⟨i, q⟩ hmem
    obtain ⟨hlt, heq⟩ := List.mem_enum hmem
    simp only
    rw [heq]
    simpa using nodup_ids_findIdx hnd hlt
  rw [List.filter_eq_self.mpr hall, List.enum_eq_enumFrom, List.enumFrom_map_snd]

lemma mapGet_mapSet {β : Type} (m : List (String × β)) (k k2 : String) (v : β) :
    mapGet (mapSet m k v) k2 = if k = k2 then some v else mapGet m k2 := by
  induction m with
  | nil => simp [mapSet, mapGet]
  | cons p rest ih =>
    by_cases hp : p.1 = k
    · rw [mapSet]
      simp only [hp, if_pos rfl]
      by_cases hk : k = k2
      · simp [mapGet, hk]
      · simp [mapGet, hk, hp]
    · rw [mapSet]
      simp only [if_neg hp]
      by_cases hp2 : p.1 = k2
      · have hk : ¬ k = k2 := fun h => hp (h ▸ hp2)
        simp [mapGet, hp2, hk]
      · simp [mapGet, hp2, ih]

lemma mapGet_mapSet_self {β : Type} (m : List (String × β)) (k : String) (v : β) :
    mapGet (mapSet m k v) k = some v := by
  rw [mapGet_mapSet]
  simp

lemma mapDelete_cons {β : Type} (p : String × β) (rest : List (String × β))
    (k : String) :
    mapDelete (p :: rest) k
      = if p.1 = k then mapDelete rest k else p :: mapDelete rest k := by
  by_cases hp : p.1 = k <;> simp [mapDelete, List.filter_cons, hp]

lemma mapGet_mapDelete {β : Type} (m : List (String × β)) (k k2 : String) :
    mapGet (mapDelete m k) k2 = if k = k2 then none else mapGet m k2 := by
  induction m with
  | nil => simp [mapDelete, mapGet]
  | cons p rest ih =>
    rw [mapDelete_cons]
    by_cases hp : p.1 = k
    · rw [if_pos hp, ih]
      by_cases hk : k = k2
      · simp [hk]
      · have hp2 : ¬ p.1 = k2 := fun h => hk (hp ▸ h)
        simp [hk, mapGet, hp2]
    · rw [if_neg hp, mapGet]
      by_cases hp2 : p.1 = k2
      · have hk : ¬ k = k2 := fun h => hp (h ▸ hp2)
        simp [hp2, hk, mapGet]
      · rw [if_neg hp2, ih, mapGet, if_neg hp2]

lemma mapGet_mapConcat_isSome {β : Type} (m2 m : List (String × β)) (k : String)
    (h : (mapGet m k).isSome) : (mapGet (mapConcat m m2) k).isSome := by
  induction m2 generalizing m with
  | nil => exact h
  | cons p rest ih =>
    rw [mapConcat, List.foldl_cons]
    refine ih (mapSet m p.1 p.2) ?_
    rw [mapGet_mapSet]
    by_cases hk : p.1 = k
    · simp [hk]
    · simpa [hk] using h

/-- A JavaScript exception: either an Error carrying a message, or any
other thrown value (error instanceof Error is false). -/
inductive JsError where
  | error (message : String)
  | other
deriving DecidableEq, Repr

/-- Message extraction used in the catch blocks:
error instanceof Error ? error.message : defaultMsg. -/
def errMessage (e : JsError) (defaultMsg : String) : String :=
  match e with
  | JsError.error m => m
  | JsError.other => defaultMsg

/-- How one engine operation finished: resolved, rejected with the
re-thrown error, or died on the TypeError raised by the non-null
assertion in updateChatQueries when the chat is absent from the map. -/
inductive OpResult where
  | ok
  | raised (e : JsError)
  | tyError
deriving DecidableEq, Repr

/-- Outcome of one engine operation: the state at settlement time,
whether the network request was actually issued, and how it finished. -/
structure OpOutcome where
  state : EngineState
  networkCalled : Bool
  result : OpResult
deriving DecidableEq, Repr

/-- The dedup branch of updateChatQueries: the unique list is adopted
only when the filter actually removed something, otherwise the updated
list is kept as is. -/
def jsDedupSelect (l : List Query) : List Query :=
  if (dedupById l).length ≠ l.length then dedupById l else l

/-- The totalChange bookkeeping of updateChatQueries: plus one when the
list grew, minus one when it shrank, zero otherwise, and zero whenever
syncTotalCount is false. -/
def totalDelta (syncTotalCount : Bool) (oldLen newLen : Nat) : Int :=
  if syncTotalCount then
    if newLen > oldLen then 1 else if newLen < oldLen then -1 else 0
  else 0

/-- ChatbotService._updateChatQueries.  Returns none when
chats.get(chatId)! dereferences undefined (the TypeError of C10);
otherwise applies updateFn, the dedup filter, the totalQueries
bookkeeping, and stores the chat back under chat.id. -/
def updateChatQueries (st : EngineState) (chatId : String)
    (updateFn : List Query → List Query) (syncTotalCount : Bool) :
    Option EngineState :=
  match mapGet st.chats chatId with
  | none => none
  | some chat =>
    some { st with
      chats :=
        mapSet st.chats chat.id
          { chat with
            queries := jsDedupSelect (updateFn chat.queries),
            totalQueries := chat.totalQueries +
              totalDelta syncTotalCount chat.queries.length
                (jsDedupSelect (updateFn chat.queries)).length } }

lemma jsDedupSelect_eq (l : List Query) : jsDedupSelect l = dedupById l := by
  unfold jsDedupSelect
  by_cases h : (dedupById l).length = l.length
  · rw [if_neg (by simpa using h)]
    exact ((dedupById_sublist l).eq_of_length h).symm
  · rw [if_pos h]

lemma updateChatQueries_some {st : EngineState} {chatId : String}
    {chat : Chat} (updateFn : List Query → List Query) (syncTotalCount : Bool)
    (hchat : mapGet st.chats chatId = some chat) :
    updateChatQueries st chatId updateFn syncTotalCount
      = some { st with
          chats :=
            mapSet st.chats chat.id
              { chat with
                queries := dedupById (updateFn chat.queries),
                totalQueries := chat.totalQueries +
                  totalDelta syncTotalCount chat.queries.length
                    (dedupById (updateFn chat.queries)).length } } := by
  unfold updateChatQueries
  rw [hchat]
  simp only [jsDedupSelect_eq]

lemma updateChatQueries_none {st : EngineState} {chatId : String}
    (updateFn : List Query → List Query) (syncTotalCount : Bool)
    (habs : mapGet st.chats chatId = none) :
    updateChatQueries st chatId updateFn syncTotalCount = none := by
  unfold updateChatQueries
  rw [habs]

/-- ChatbotService._createDummyQuery: new Query({message, createdAt});
every other field keeps its record default, in particular id stays the
empty string and status stays null. -/
def createDummyQuery (message : String) (now : Nat) : Query :=
  { message := message, createdAt := now }

/-- ChatbotService.sendQuery.  Parameters now (Date of the dummy) and
bumpTime (Date written into updatedAt on success) stand for the two
new Date() calls; net is the settlement of chatbotApi.sendQuery.  The
method records lastUsedChat, appends the dummy (synchronously, before
the network call, hence networkCalled = false when that step throws),
then reconciles: on a fulfilled query, pop the last element and push
the result and bump updatedAt; on a fulfilled undefined, do nothing;
on rejection, pop and push a failed query with the dummy id and message
and re-throw. -/
def sendQuery (st : EngineState) (chatId message : String)
    (now bumpTime : Nat) (net : Except JsError (Option Query)) : OpOutcome :=
  let st0 : EngineState := { st with lastUsedChat := chatId }
  let msgQuery := createDummyQuery message now
  match updateChatQueries st0 chatId (fun q => q ++ [msgQuery]) true with
  | none => OpOutcome.mk st0 false OpResult.tyError
  | some st1 =>
    match net with
    | Except.ok (some query) =>
      let st2 : EngineState := { st1 with lastUsedChat := "" }
      match updateChatQueries st2 chatId (fun q => q.dropLast ++ [query]) true with
      | none => OpOutcome.mk st2 true OpResult.tyError
      | some st3 =>
        match mapGet st3.chats chatId with
        | none => OpOutcome.mk st3 true OpResult.tyError
        | some chat =>
          OpOutcome.mk
            { st3 with chats := mapSet st3.chats chatId { chat with updatedAt := bumpTime } }
            true OpResult.ok
    | Except.ok none =>
      OpOutcome.mk { st1 with lastUsedChat := "" } true OpResult.ok
    | Except.error e =>
      let st2 : EngineState := { st1 with lastUsedChat := "" }
      let failedQuery : Query :=
        { id := msgQuery.id, message := message, response := "",
          createdAt := msgQuery.createdAt, status := some "failed",
          errorMessage :=
            some (errMessage e "An unexpected error occurred. Please try again.") }
      match updateChatQueries st2 chatId (fun q => q.dropLast ++ [failedQuery]) true with
      | none => OpOutcome.mk st2 true OpResult.tyError
      | some st3 => OpOutcome.mk st3 true (OpResult.raised e)

/-- ChatbotService.loadChats.  When a load is already in flight the
method returns at once without a network call; otherwise the flag is
set to loading, and on success the fetched map is concatenated into the
existing one (concat: new entries override on key collision), on
failure the flag is reset to null and the error re-thrown. -/
def loadChats (st : EngineState)
    (net : Except JsError (List (String × Chat))) : OpOutcome :=
  if st.chatsState = ItemState.loading then
    OpOutcome.mk st false OpResult.ok
  else
    match net with
    | Except.ok chats =>
      OpOutcome.mk
        { st with chats := mapConcat st.chats chats, chatsState := ItemState.loaded }
        true OpResult.ok
    | Except.error e =>
      OpOutcome.mk { st with chatsState := ItemState.null } true (OpResult.raised e)

/-- The JavaScript cursor read chatsPages.get(chatId) || 1: undefined
and 0 are both falsy and give page 1. -/
def jsOrDefaultPage (v : Option Nat) : Nat :=
  match v with
  | none => 1
  | some n => if n = 0 then 1 else n

/-- The synchronous head of ChatbotService.loadChatQueries, executed
before the network call suspends: read the cursor (default 1) and store
the incremented cursor.  Returns the new state and the page that the
network request will use. -/
def loadChatQueriesBegin (st : EngineState) (chatId : String) :
    EngineState × Nat :=
  let page := jsOrDefaultPage (mapGet st.chatsPages chatId)
  ({ st with chatsPages := mapSet st.chatsPages chatId (page + 1) }, page)

/-- The rest of ChatbotService.loadChatQueries, from the await on: on a
fulfilled page, concatenate its queries into the chat through
updateChatQueries with syncTotalCount = false; a rejection propagates
without touching the chat map. -/
def loadChatQueriesFinish (st : EngineState) (chatId : String)
    (net : Except JsError (List Query)) : OpOutcome :=
  match net with
  | Except.error e => OpOutcome.mk st true (OpResult.raised e)
  | Except.ok queries =>
    match updateChatQueries st chatId (fun q => q ++ queries) false with
    | none => OpOutcome.mk st true OpResult.tyError
    | some st2 => OpOutcome.mk st2 true OpResult.ok

/-- ChatbotService.loadChatQueries as one settled operation. -/
def loadChatQueries (st : EngineState) (chatId : String)
    (net : Except JsError (List Query)) : OpOutcome :=
  loadChatQueriesFinish (loadChatQueriesBegin st chatId).1 chatId net

/-- ChatbotService.deleteChat: the map entry is removed in the then
callback, so only after the network delete fulfilled; a rejection
leaves the state untouched and propagates. -/
def deleteChat (st : EngineState) (chatId : String)
    (net : Except JsError Unit) : OpOutcome :=
  match net with
  | Except.ok _ =>
    OpOutcome.mk { st with chats := mapDelete st.chats chatId } true OpResult.ok
  | Except.error e => OpOutcome.mk st true (OpResult.raised e)

/-- The persisted token pair of AuthService (localStorage entries
agent_hub_access_token and agent_hub_refresh_token). -/
structure TokenStore where
  accessToken : Option String := none
  refreshToken : Option String := none
deriving DecidableEq, Repr

/-- Wire shape of a refresh response body, the AuthTokens interface. -/
structure AuthTokens where
  access_token : String
  refresh_token : String
  token_type : String := "bearer"
  expires_in : Nat := 0
deriving DecidableEq, Repr

/-- AuthService.storeTokens. -/
def storeTokens (_ : TokenStore) (t : AuthTokens) : TokenStore :=
  { accessToken := some t.access_token, refreshToken := some t.refresh_token }

/-- AuthService.clearTokens. -/
def clearTokens (_ : TokenStore) : TokenStore :=
  { accessToken := none, refreshToken := none }

/-- JavaScript truthiness of a nullable string: null and the empty
string are falsy. -/
def jsTruthy (s : Option String) : Bool :=
  match s with
  | none => false
  | some str => str ≠ ""

/-- AuthService session state: the token store plus the reactive
isAuthenticated flag. -/
structure AuthState where
  store : TokenStore := {}
  isAuthenticated : Bool := false
deriving DecidableEq, Repr

/-- Response.ok of the fetch API: status in the 200 to 299 range. -/
def responseOk (status : Nat) : Bool :=
  200 ≤ status && status < 300

/-- AuthService.getAuthHeaders: a Bearer header when a truthy access
token is stored, nothing otherwise. -/
def bearerHeader (t : Option String) : Option String :=
  match t with
  | some tok => if tok = "" then none else some ("Bearer " ++ tok)
  | none => none

/-- The Authorization header actually sent, from the object spread
headers = (...getAuthHeaders(), ...options.headers): a caller-supplied
Authorization value overrides the injected bearer token. -/
def effectiveAuthHeader (store : TokenStore) (callerAuth : Option String) :
    Option String :=
  match callerAuth with
  | some a => some a
  | none => bearerHeader store.accessToken

/-- Outcome of AuthService.refreshToken: state after the call, whether
the refresh endpoint was actually reached, and either success or the
thrown error message. -/
structure RefreshOutcome where
  state : AuthState
  endpointCalled : Bool
  result : Except String Unit
deriving Repr

/-- AuthService.refreshToken: throw when no (truthy) refresh token is
stored; otherwise call the refresh endpoint, throw on a rejected fetch
or a non-ok status, and persist the returned pair on success. -/
def refreshTokenOp (st : AuthState)
    (net : Except String (Nat × AuthTokens)) : RefreshOutcome :=
  if jsTruthy st.store.refreshToken then
    match net with
    | Except.error e => RefreshOutcome.mk st true (Except.error e)
    | Except.ok (status, tokens) =>
      if responseOk status then
        RefreshOutcome.mk { st with store := storeTokens st.store tokens }
          true (Except.ok ())
      else
        RefreshOutcome.mk st true (Except.error "Failed to refresh token")
  else
    RefreshOutcome.mk st false (Except.error "No refresh token available")

/-- The part of AuthService.logout that runs synchronously when it is
invoked without await: with a truthy refresh token stored, the method
suspends on the server revoke call before clearing anything, so the
state is unchanged and the clearing is still pending (second component
true); with no refresh token it clears tokens and the session flag
right away. -/
def logoutSyncPart (st : AuthState) : AuthState × Bool :=
  if jsTruthy st.store.refreshToken then
    (st, true)
  else
    (AuthState.mk (clearTokens st.store) false, false)

/-- The deferred tail of AuthService.logout, applied when the suspended
call settles: tokens cleared, session unauthenticated. -/
def logoutFinish (st : AuthState) : AuthState :=
  AuthState.mk (clearTokens st.store) false

/-- Final result of authenticatedFetch: a returned Response with its
status, the thrown Error with message Authentication failed, or a
propagated network rejection. -/
inductive FetchResult where
  | response (status : Nat)
  | authFailed
  | netError (msg : String)
deriving DecidableEq, Repr

/-- Everything observable about one authenticatedFetch call: the auth
state at settlement, the Authorization headers of the requests sent to
the original url in order, how often the refresh endpoint was invoked,
whether a fire-and-forget logout was started and whether its clearing
was still pending at settlement, and the result. -/
structure AuthFetchOutcome where
  state : AuthState
  sentAuthHeaders : List (Option String)
  refreshCalls : Nat
  logoutStarted : Bool
  logoutPending : Bool
  result : FetchResult
deriving DecidableEq, Repr

/-- AuthService.authenticatedFetch.  The three network parameters are
the oracle for the first request, the refresh endpoint, and the single
retry; each is consulted only if the code reaches it.  Mirrors the
source: a 401 with a truthy stored refresh token triggers refreshToken
followed by exactly one retry whose response is returned whatever its
status; any failure inside that branch calls logout without awaiting it
and throws Error with message Authentication failed; every other first
response is returned as is. -/
def authenticatedFetch (st : AuthState) (callerAuth : Option String)
    (firstNet : Except String Nat)
    (refreshNet : Except String (Nat × AuthTokens))
    (retryNet : Except String Nat) : AuthFetchOutcome :=
  let h1 := effectiveAuthHeader st.store callerAuth
  match firstNet with
  | Except.error e => AuthFetchOutcome.mk st [h1] 0 false false (FetchResult.netError e)
  | Except.ok status1 =>
    if status1 = 401 && jsTruthy st.store.refreshToken then
      let r := refreshTokenOp st refreshNet
      let rc := if r.endpointCalled then 1 else 0
      match r.result with
      | Except.ok _ =>
        let h2 := effectiveAuthHeader r.state.store callerAuth
        match retryNet with
        | Except.ok s2 =>
          AuthFetchOutcome.mk r.state [h1, h2] rc false false (FetchResult.response s2)
        | Except.error _ =>
          let lg := logoutSyncPart r.state
          AuthFetchOutcome.mk lg.1 [h1, h2] rc true lg.2 FetchResult.authFailed
      | Except.error _ =>
        let lg := logoutSyncPart r.state
        AuthFetchOutcome.mk lg.1 [h1] rc true lg.2 FetchResult.authFailed
    else
      AuthFetchOutcome.mk st [h1] 0 false false (FetchResult.response status1)

/-- C1: for every mutation of the query list of a chat performed through
updateChatQueries (dummy append, pop/push reconciliation, or bulk page
merge as instances of updateFn), the resulting query list has no two
queries with equal id; it is the subsequence of the updated list keeping
only the first occurrence of each id, so survivors keep their original
order. -/
theorem updateChatQueries_dedup_invariant
    (st : EngineState) (chatId : String) (updateFn : List Query → List Query)
    (syncTotalCount : Bool) (chat : Chat) (st2 : EngineState)
    (hchat : mapGet st.chats chatId = some chat)
    (hup : updateChatQueries st chatId updateFn syncTotalCount = some st2) :
    ∃ chat2, mapGet st2.chats chat.id = some chat2 ∧
      chat2.queries = dedupById (updateFn chat.queries) ∧
      (chat2.queries.map Query.id).Nodup ∧
      chat2.queries.Sublist (updateFn chat.queries) ∧
      (∀ q ∈ updateFn chat.queries, ∃ q2 ∈ chat2.queries, q2.id = q.id) ∧
      (∀ q2 ∈ chat2.queries,
        (updateFn chat.queries)[(updateFn chat.queries).findIdx
          (fun r => r.id == q2.id)]? = some q2) := by
  rw [updateChatQueries_some updateFn syncTotalCount hchat] at hup
  injection hup with h
  subst h
  refine ⟨_, mapGet_mapSet_self _ _ _, rfl, dedupById_nodup_ids _,
    dedupById_sublist _, ?_, ?_⟩
  · intro q hq
    exact dedupById_id_surjective hq
  · intro q2 hq2
    exact dedupById_first_occurrence hq2

/-- Concrete chat used by the C1 witness: two queries with distinct ids. -/
def chatW1 : Chat :=
  { id := "c", name := "w", queries := [{ id := "a" }, { id := "b" }] }

/-- Concrete engine state used by the C1 witness. -/
def stW1 : EngineState := { chats := [("c", chatW1)] }

/-- Concrete mutation used by the C1 witness: append a query whose id
duplicates an existing one. -/
def updW1 : List Query → List Query :=
  fun q => q ++ [{ id := "a", message := "dup" }]

/-- Result state of the C1 witness mutation. -/
def stW1r : EngineState := (updateChatQueries stW1 "c" updW1 true).getD stW1

/-- Witness for C1 at a concrete duplicate-producing mutation. -/
theorem updateChatQueries_dedup_invariant_witness :
    ∃ chat2, mapGet stW1r.chats chatW1.id = some chat2 ∧
      chat2.queries = dedupById (updW1 chatW1.queries) ∧
      (chat2.queries.map Query.id).Nodup ∧
      chat2.queries.Sublist (updW1 chatW1.queries) ∧
      (∀ q ∈ updW1 chatW1.queries, ∃ q2 ∈ chat2.queries, q2.id = q.id) ∧
      (∀ q2 ∈ chat2.queries,
        (updW1 chatW1.queries)[(updW1 chatW1.queries).findIdx
          (fun r => r.id == q2.id)]? = some q2) :=
  updateChatQueries_dedup_invariant stW1 "c" updW1 true chatW1 stW1r
    (by decide) (by decide)

/-- C10: sendQuery and loadChatQueries require the chatId to be present
in the chat map; for an absent chatId both die on the TypeError of the
non-null map dereference instead of a checked error, sendQuery before
its network call is issued and loadChatQueries only after its page
fetch resolved. -/
theorem absent_chat_type_error
    (st : EngineState) (chatId message : String) (now bumpTime : Nat)
    (netSend : Except JsError (Option Query)) (fetched : List Query)
    (habs : mapGet st.chats chatId = none) :
    (sendQuery st chatId message now bumpTime netSend).result = OpResult.tyError ∧
    (sendQuery st chatId message now bumpTime netSend).networkCalled = false ∧
    (loadChatQueries st chatId (Except.ok fetched)).result = OpResult.tyError ∧
    (loadChatQueries st chatId (Except.ok fetched)).networkCalled = true := by
  have h1 : updateChatQueries { st with lastUsedChat := chatId } chatId
      (fun q => q ++ [createDummyQuery message now]) true = none :=
    updateChatQueries_none _ _ habs
  have h2 : updateChatQueries (loadChatQueriesBegin st chatId).1 chatId
      (fun q => q ++ fetched) false = none :=
    updateChatQueries_none _ _ habs
  refine ⟨?_, ?_, ?_, ?_⟩
  · simp only [sendQuery, h1]
  · simp only [sendQuery, h1]
  · simp only [loadChatQueries, loadChatQueriesFinish, h2]
  · simp only [loadChatQueries, loadChatQueriesFinish, h2]

/-- Empty engine state, used by several witnesses. -/
def stEmpty : EngineState := {}

/-- Witness for C10 at the empty state. -/
theorem absent_chat_type_error_witness :
    mapGet stEmpty.chats "c0" = none ∧
    (sendQuery stEmpty "c0" "hi" 0 0 (Except.ok none)).result = OpResult.tyError ∧
    (sendQuery stEmpty "c0" "hi" 0 0 (Except.ok none)).networkCalled = false ∧
    (loadChatQueries stEmpty "c0" (Except.ok [])).result = OpResult.tyError ∧
    (loadChatQueries stEmpty "c0" (Except.ok [])).networkCalled = true := by
  have h := absent_chat_type_error stEmpty "c0" "hi" 0 0 (Except.ok none) []
    (by decide)
  exact ⟨by decide, h.1, h.2.1, h.2.2.1, h.2.2.2⟩

/-- C8: deleteChat removes the map entry only after the network delete
fulfilled; other entries are untouched; a rejection leaves the whole
state exactly as it was and propagates the error. -/
theorem deleteChat_remove_after_success (st : EngineState) (chatId : String) :
    ((deleteChat st chatId (Except.ok ())).state.chats
        = mapDelete st.chats chatId ∧
      mapGet (deleteChat st chatId (Except.ok ())).state.chats chatId = none ∧
      (∀ k, k ≠ chatId →
        mapGet (deleteChat st chatId (Except.ok ())).state.chats k
          = mapGet st.chats k) ∧
      (deleteChat st chatId (Except.ok ())).result = OpResult.ok) ∧
    (∀ e, (deleteChat st chatId (Except.error e)).state = st ∧
      (deleteChat st chatId (Except.error e)).result = OpResult.raised e) := by
  refine ⟨⟨rfl, ?_, ?_, rfl⟩, fun e => ⟨rfl, rfl⟩⟩
  · show mapGet (mapDelete st.chats chatId) chatId = none
    rw [mapGet_mapDelete]
    simp
  · intro k hk
    show mapGet (mapDelete st.chats chatId) k = mapGet st.chats k
    rw [mapGet_mapDelete, if_neg (fun h => hk h.symm)]

/-- Witness for C8 at a one-chat state. -/
theorem deleteChat_remove_after_success_witness :
    mapGet (deleteChat stW1 "c" (Except.ok ())).state.chats "c" = none ∧
    (deleteChat stW1 "c" (Except.error JsError.other)).state = stW1 := by
  have h := deleteChat_remove_after_success stW1 "c"
  exact ⟨h.1.2.1, (h.2 JsError.other).1⟩

/-- C7: a loadChats call that starts while another load is in flight
returns at once, with no network request and no state change; a
completed successful load merges additively, so every chat key present
before is still present after. -/
theorem loadChats_inflight_and_additive (st : EngineState)
    (net : Except JsError (List (String × Chat))) :
    (st.chatsState = ItemState.loading →
      loadChats st net = OpOutcome.mk st false OpResult.ok) ∧
    (∀ chats, net = Except.ok chats → st.chatsState ≠ ItemState.loading →
      ∀ k, (mapGet st.chats k).isSome →
        (mapGet (loadChats st net).state.chats k).isSome ∧
        (loadChats st net).result = OpResult.ok) := by
  constructor
  · intro h
    simp only [loadChats, if_pos h]
  · intro chats hnet hnl k hk
    subst hnet
    simp only [loadChats, if_neg hnl]
    constructor
    · exact mapGet_mapConcat_isSome chats st.chats k hk
    · trivial

/-- Witness for C7: an in-flight state is returned unchanged, and a
fetched batch keeps the pre-existing key present. -/
theorem loadChats_inflight_and_additive_witness :
    (loadChats { stW1 with chatsState := ItemState.loading }
        (Except.ok [])).state = { stW1 with chatsState := ItemState.loading } ∧
    (mapGet (loadChats stW1 (Except.ok [("d", { id := "d" })])).state.chats
      "c").isSome := by
  constructor
  · have h := (loadChats_inflight_and_additive
      { stW1 with chatsState := ItemState.loading } (Except.ok [])).1 (by decide)
    rw [h]
  · exact ((loadChats_inflight_and_additive stW1
      (Except.ok [("d", { id := "d" })])).2 [("d", { id := "d" })] rfl
      (by decide) "c" (by decide)).1

/-- C6: loadChatQueries reads the cursor with default 1 and stores the
incremented cursor synchronously (so an overlapping second call reads
the next page), and a fulfilled page is concatenated onto the existing
list, dedup-filtered, with totalQueries untouched. -/
theorem loadChatQueries_cursor_and_merge
    (st : EngineState) (chatId : String) (chat : Chat)
    (hchat : mapGet st.chats chatId = some chat)
    (fetched : List Query) :
    (loadChatQueriesBegin st chatId).2
      = jsOrDefaultPage (mapGet st.chatsPages chatId) ∧
    mapGet (loadChatQueriesBegin st chatId).1.chatsPages chatId
      = some ((loadChatQueriesBegin st chatId).2 + 1) ∧
    (loadChatQueriesBegin (loadChatQueriesBegin st chatId).1 chatId).2
      = (loadChatQueriesBegin st chatId).2 + 1 ∧
    (∃ chat2,
      mapGet (loadChatQueries st chatId (Except.ok fetched)).state.chats chat.id
        = some chat2 ∧
      chat2.queries = dedupById (chat.queries ++ fetched) ∧
      chat2.totalQueries = chat.totalQueries) := by
  refine ⟨rfl, mapGet_mapSet_self _ _ _, ?_, ?_⟩
  · simp [loadChatQueriesBegin, mapGet_mapSet_self, jsOrDefaultPage]
  · have hchat2 : mapGet (loadChatQueriesBegin st chatId).1.chats chatId
        = some chat := hchat
    have h := updateChatQueries_some (fun q => q ++ fetched) false hchat2
    simp only [loadChatQueries, loadChatQueriesFinish, h]
    refine ⟨_, mapGet_mapSet_self _ _ _, rfl, ?_⟩
    show chat.totalQueries + totalDelta false chat.queries.length _
      = chat.totalQueries
    simp [totalDelta]

/-- Witness for C6 at a concrete one-chat state. -/
theorem loadChatQueries_cursor_and_merge_witness :
    mapGet stW1.chats "c" = some chatW1 ∧
    mapGet (loadChatQueriesBegin stW1 "c").1.chatsPages "c"
      = some ((loadChatQueriesBegin stW1 "c").2 + 1) ∧
    (loadChatQueriesBegin (loadChatQueriesBegin stW1 "c").1 "c").2
      = (loadChatQueriesBegin stW1 "c").2 + 1 ∧
    (∃ chat2,
      mapGet (loadChatQueries stW1 "c"
        (Except.ok [{ id := "b" }, { id := "z" }])).state.chats chatW1.id
        = some chat2 ∧
      chat2.queries = dedupById (chatW1.queries ++ [{ id := "b" }, { id := "z" }]) ∧
      chat2.totalQueries = chatW1.totalQueries) := by
  have h := loadChatQueries_cursor_and_merge stW1 "c" chatW1 (by decide)
    [{ id := "b" }, { id := "z" }]
  exact ⟨by decide, h.2.1, h.2.2.1, h.2.2.2⟩

/-- C9 counterexample: a failing loadChatQueries does not leave the
pagination cursor intact; the cursor for the requested chat was unset
(page 1) before the call and is 2, not rolled back, after the rejected
fetch propagates. -/
theorem loadChatQueries_cursor_not_rolled_back :
    mapGet stW1.chatsPages "c" = none ∧
    (loadChatQueries stW1 "c" (Except.error (JsError.error "boom"))).result
      = OpResult.raised (JsError.error "boom") ∧
    mapGet (loadChatQueries stW1 "c"
      (Except.error (JsError.error "boom"))).state.chatsPages "c" = some 2 := by
  decide

/-- C9 amended: failing reads leave the chat map (hence every query
list) intact and propagate the error; loadChats also leaves the cursors
intact, but a failing loadChatQueries leaves the requested cursor
permanently incremented. -/
theorem failing_reads_preserve_chat_map (st : EngineState) (chatId : String)
    (e : JsError) :
    (st.chatsState ≠ ItemState.loading →
      (loadChats st (Except.error e)).state.chats = st.chats ∧
      (loadChats st (Except.error e)).state.chatsPages = st.chatsPages ∧
      (loadChats st (Except.error e)).result = OpResult.raised e) ∧
    ((loadChatQueries st chatId (Except.error e)).state.chats = st.chats ∧
      (loadChatQueries st chatId (Except.error e)).result = OpResult.raised e ∧
      (loadChatQueries st chatId (Except.error e)).state.chatsPages
        = mapSet st.chatsPages chatId
            (jsOrDefaultPage (mapGet st.chatsPages chatId) + 1)) := by
  constructor
  · intro h
    simp only [loadChats, if_neg h]
    exact ⟨trivial, trivial, trivial⟩
  · exact ⟨rfl, rfl, rfl⟩

/-- Witness for the amended C9 at a concrete state. -/
theorem failing_reads_preserve_chat_map_witness :
    stW1.chatsState ≠ ItemState.loading ∧
    (loadChats stW1 (Except.error JsError.other)).state.chats = stW1.chats ∧
    (loadChatQueries stW1 "c" (Except.error JsError.other)).state.chats
      = stW1.chats := by
  have h := failing_reads_preserve_chat_map stW1 "c" JsError.other
  exact ⟨by decide, (h.1 (by decide)).1, h.2.1⟩

lemma nodup_ids_append {L : List Query} {q : Query}
    (hnd : (L.map Query.id).Nodup) (hfresh : q.id ∉ L.map Query.id) :
    ((L ++ [q]).map Query.id).Nodup := by
  rw [List.map_append]
  simp [List.nodup_append, hnd, hfresh]

lemma createDummyQuery_id (m : String) (t : Nat) :
    (createDummyQuery m t).id = "" := rfl

lemma createDummyQuery_createdAt (m : String) (t : Nat) :
    (createDummyQuery m t).createdAt = t := rfl

/-- C2 counterexample: the query list size after a resolved sendQuery is
not equal to its size immediately before the call; a successful send on
a chat with two queries leaves three (the user message net-adds one
entry), so the claim as stated fails on the main success path. -/
theorem sendQuery_size_claim_counterexample :
    (mapGet stW1.chats "c").map (fun c => c.queries.length) = some 2 ∧
    (mapGet (sendQuery stW1 "c" "hello" 0 7
        (Except.ok (some { id := "q1", message := "hello", response := "hi" }))
      ).state.chats "c").map (fun c => c.queries.length) = some 3 := by
  decide

/-- C2 amended: measured against the state right after the optimistic
dummy append (one more entry than before the call), every resolution of
sendQuery preserves the size: success with a result and rejection
replace the dummy in place by exactly one outcome query (the rejection
outcome carrying the dummy id, the message and an errorMessage, with
the error re-raised), and fulfilment with no result leaves the dummy;
the hypotheses rule out id collisions with pre-existing entries, which
the dedup filter would otherwise collapse. -/
theorem sendQuery_reconciliation
    (st : EngineState) (chatId message : String) (now bumpTime : Nat)
    (chat : Chat)
    (hchat : mapGet st.chats chatId = some chat)
    (hid : chat.id = chatId)
    (hnd : (chat.queries.map Query.id).Nodup)
    (hfresh : "" ∉ chat.queries.map Query.id) :
    (∀ q : Query, q.id ∉ chat.queries.map Query.id →
      ∃ chat2, mapGet (sendQuery st chatId message now bumpTime
          (Except.ok (some q))).state.chats chatId = some chat2 ∧
        chat2.queries = chat.queries ++ [q] ∧
        chat2.queries.length = chat.queries.length + 1 ∧
        (sendQuery st chatId message now bumpTime (Except.ok (some q))).result
          = OpResult.ok) ∧
    (∀ e : JsError,
      ∃ chat2, mapGet (sendQuery st chatId message now bumpTime
          (Except.error e)).state.chats chatId = some chat2 ∧
        chat2.queries = chat.queries ++
          [{ id := "", message := message, response := "", createdAt := now,
             status := some "failed",
             errorMessage := some (errMessage e
               "An unexpected error occurred. Please try again.") }] ∧
        chat2.queries.length = chat.queries.length + 1 ∧
        (sendQuery st chatId message now bumpTime (Except.error e)).result
          = OpResult.raised e) ∧
    (∃ chat2, mapGet (sendQuery st chatId message now bumpTime
        (Except.ok none)).state.chats chatId = some chat2 ∧
      chat2.queries = chat.queries ++ [createDummyQuery message now] ∧
      chat2.queries.length = chat.queries.length + 1) := by
  have hded1 : dedupById (chat.queries ++ [createDummyQuery message now])
      = chat.queries ++ [createDummyQuery message now] :=
    dedupById_eq_self (nodup_ids_append hnd hfresh)
  refine ⟨?_, ?_, ?_⟩
  · intro q hq
    have hdedQ : dedupById (chat.queries ++ [q]) = chat.queries ++ [q] :=
      dedupById_eq_self (nodup_ids_append hnd hq)
    simp only [sendQuery, updateChatQueries, jsDedupSelect_eq, hchat, hid,
      mapGet_mapSet, createDummyQuery_id, createDummyQuery_createdAt,
      if_pos, eq_self_iff_true, if_true, hded1, List.dropLast_concat, hdedQ]
    refine ⟨_, rfl, rfl, by simp, trivial⟩
  · intro e
    have hdedF : dedupById (chat.queries ++
        [{ id := "", message := message, response := "", createdAt := now,
           status := some "failed",
           errorMessage := some (errMessage e
             "An unexpected error occurred. Please try again.") }])
        = chat.queries ++
          [{ id := "", message := message, response := "", createdAt := now,
             status := some "failed",
             errorMessage := some (errMessage e
               "An unexpected error occurred. Please try again.") }] :=
      dedupById_eq_self (nodup_ids_append hnd hfresh)
    simp only [sendQuery, updateChatQueries, jsDedupSelect_eq, hchat, hid,
      mapGet_mapSet, createDummyQuery_id, createDummyQuery_createdAt,
      if_pos, eq_self_iff_true, if_true, hded1, List.dropLast_concat, hdedF]
    refine ⟨_, rfl, rfl, by simp, trivial⟩
  · simp only [sendQuery, updateChatQueries, jsDedupSelect_eq, hchat, hid,
      mapGet_mapSet, if_pos, eq_self_iff_true, if_true, hded1]
    refine ⟨_, rfl, rfl, by simp⟩

/-- Witness for the amended C2 at a concrete state, exercising the
success-with-result and the rejection resolutions. -/
theorem sendQuery_reconciliation_witness :
    (∃ chat2, mapGet (sendQuery stW1 "c" "hello" 3 7
        (Except.ok (some { id := "q9", message := "hello", response := "hi" }))
      ).state.chats "c" = some chat2 ∧
      chat2.queries = chatW1.queries ++
        [{ id := "q9", message := "hello", response := "hi" }] ∧
      chat2.queries.length = chatW1.queries.length + 1) ∧
    (∃ chat2, mapGet (sendQuery stW1 "c" "hello" 3 7
        (Except.error (JsError.error "down"))).state.chats "c" = some chat2 ∧
      chat2.queries = chatW1.queries ++
        [{ id := "", message := "hello", response := "", createdAt := 3,
           status := some "failed", errorMessage := some (errMessage
             (JsError.error "down")
             "An unexpected error occurred. Please try again.") }]) := by
  have h := sendQuery_reconciliation stW1 "c" "hello" 3 7 chatW1
    (by decide) (by decide) (by decide) (by decide)
  constructor
  · obtain ⟨c2, h1, h2, h3, _⟩ :=
      h.1 { id := "q9", message := "hello", response := "hi" } (by decide)
    exact ⟨c2, h1, h2, h3⟩
  · obtain ⟨c2, h1, h2, _, _⟩ := h.2.1 (JsError.error "down")
    exact ⟨c2, h1, h2⟩

/-- C5 counterexample: the dummy queries of two distinct invocations
share the same id (the record default, the empty string), so the id is
neither fresh nor distinct from every other query id; and the dummy is
created with null status, not a pending status value. -/
theorem createDummyQuery_claim_counterexample :
    (createDummyQuery "hello" 5).id = (createDummyQuery "other" 9).id ∧
    (createDummyQuery "hello" 5).status ≠ some "pending" := by
  decide

/-- C5 amended: the dummy synthesized by createChat and sendQuery keeps
the record defaults: its id is always the empty string (identical across
all dummies, relied on by the dedup filter) and its status is null (the
Query status type has no pending value; a null status with empty
response is what renders as pending); only message and createdAt are
set. -/
theorem createDummyQuery_defaults (message m2 : String) (now t2 : Nat) :
    (createDummyQuery message now).id = "" ∧
    (createDummyQuery message now).status = none ∧
    (createDummyQuery message now).message = message ∧
    (createDummyQuery message now).response = "" ∧
    (createDummyQuery message now).createdAt = now ∧
    (createDummyQuery m2 t2).id = (createDummyQuery message now).id :=
  ⟨rfl, rfl, rfl, rfl, rfl, rfl⟩

/-- C3: on a 401 first response with a refresh token stored, the refresh
endpoint is invoked exactly once; on refresh success the new pair is
persisted and the original request is retried exactly once with headers
rebuilt from the new store (the new access token when the caller set no
Authorization header), and the retry response is final whatever its
status; any non-401 first response is returned as is with no refresh
and no retry. -/
theorem authenticatedFetch_retry_once
    (st : AuthState) (callerAuth : Option String) (rt : String)
    (hrt : st.store.refreshToken = some rt) (hne : rt ≠ "")
    (rstatus : Nat) (tokens : AuthTokens) (hok : responseOk rstatus = true)
    (s2 : Nat) :
    ((authenticatedFetch st callerAuth (Except.ok 401)
        (Except.ok (rstatus, tokens)) (Except.ok s2)).refreshCalls = 1 ∧
      (authenticatedFetch st callerAuth (Except.ok 401)
        (Except.ok (rstatus, tokens)) (Except.ok s2)).state.store
        = storeTokens st.store tokens ∧
      (authenticatedFetch st callerAuth (Except.ok 401)
        (Except.ok (rstatus, tokens)) (Except.ok s2)).sentAuthHeaders
        = [effectiveAuthHeader st.store callerAuth,
           effectiveAuthHeader (storeTokens st.store tokens) callerAuth] ∧
      (callerAuth = none →
        (authenticatedFetch st callerAuth (Except.ok 401)
          (Except.ok (rstatus, tokens)) (Except.ok s2)).sentAuthHeaders
          = [effectiveAuthHeader st.store callerAuth,
             bearerHeader (some tokens.access_token)]) ∧
      (authenticatedFetch st callerAuth (Except.ok 401)
        (Except.ok (rstatus, tokens)) (Except.ok s2)).result
        = FetchResult.response s2) ∧
    (∀ s : Nat, s ≠ 401 →
      (authenticatedFetch st callerAuth (Except.ok s)
          (Except.ok (rstatus, tokens)) (Except.ok s2)).result
        = FetchResult.response s ∧
      (authenticatedFetch st callerAuth (Except.ok s)
        (Except.ok (rstatus, tokens)) (Except.ok s2)).refreshCalls = 0 ∧
      (authenticatedFetch st callerAuth (Except.ok s)
        (Except.ok (rstatus, tokens)) (Except.ok s2)).sentAuthHeaders
        = [effectiveAuthHeader st.store callerAuth] ∧
      (authenticatedFetch st callerAuth (Except.ok s)
        (Except.ok (rstatus, tokens)) (Except.ok s2)).state = st) := by
  have htr : jsTruthy st.store.refreshToken = true := by
    rw [hrt]
    simpa [jsTruthy] using hne
  constructor
  · simp only [authenticatedFetch, refreshTokenOp, htr, hok, Bool.and_true,
      eq_self_iff_true, decide_True, if_true]
    refine ⟨?_, ?_, ?_, fun hc => ?_, ?_⟩
    · trivial
    · trivial
    · trivial
    · subst hc
      rfl
    · trivial
  · intro s hs
    have hcond : (s = 401 && jsTruthy st.store.refreshToken) = false := by
      simp [hs]
    simp only [authenticatedFetch, hcond, Bool.false_eq_true, if_false]
    refine ⟨?_, ?_, ?_, ?_⟩ <;> trivial

/-- Concrete authenticated session with both tokens, for witnesses. -/
def stAuthFull : AuthState :=
  { store := { accessToken := some "acc", refreshToken := some "ref" },
    isAuthenticated := true }

/-- Witness for C3 at a concrete store and token pair. -/
theorem authenticatedFetch_retry_once_witness :
    stAuthFull.store.refreshToken = some "ref" ∧
    (authenticatedFetch stAuthFull none (Except.ok 401)
      (Except.ok (200, { access_token := "newacc", refresh_token := "newref" }))
      (Except.ok 204)).refreshCalls = 1 ∧
    (authenticatedFetch stAuthFull none (Except.ok 401)
      (Except.ok (200, { access_token := "newacc", refresh_token := "newref" }))
      (Except.ok 204)).sentAuthHeaders
      = [some "Bearer acc", some "Bearer newacc"] ∧
    (authenticatedFetch stAuthFull none (Except.ok 401)
      (Except.ok (200, { access_token := "newacc", refresh_token := "newref" }))
      (Except.ok 204)).result = FetchResult.response 204 ∧
    (authenticatedFetch stAuthFull none (Except.ok 500)
      (Except.ok (200, { access_token := "newacc", refresh_token := "newref" }))
      (Except.ok 204)).result = FetchResult.response 500 := by
  have h := authenticatedFetch_retry_once stAuthFull none "ref" rfl
    (by decide) 200 { access_token := "newacc", refresh_token := "newref" }
    (by decide) 204
  refine ⟨rfl, h.1.1, ?_, h.1.2.2.2.2, (h.2 500 (by decide)).1⟩
  have h4 := h.1.2.2.2.1 rfl
  rw [h4]
  decide

/-- Concrete session with an access token but no refresh token. -/
def stAuthNoRefresh : AuthState :=
  { store := { accessToken := some "acc", refreshToken := none },
    isAuthenticated := true }

/-- C4 counterexample: on a 401 with no refresh token stored,
authenticatedFetch returns the 401 response to the caller as is, with
the token pair untouched and no AuthenticationFailure raised,
contradicting the claimed clear-and-fail behaviour. -/
theorem authenticatedFetch_401_no_refresh_counterexample :
    (authenticatedFetch stAuthNoRefresh none (Except.ok 401)
      (Except.error "unused") (Except.ok 200)).result
      = FetchResult.response 401 ∧
    (authenticatedFetch stAuthNoRefresh none (Except.ok 401)
      (Except.error "unused") (Except.ok 200)).state = stAuthNoRefresh ∧
    (authenticatedFetch stAuthNoRefresh none (Except.ok 401)
      (Except.error "unused") (Except.ok 200)).logoutStarted = false := by
  decide

/-- C4 amended: a 401 first response with no refresh token stored is
returned as is, with no state change and no logout; when a refresh
token is stored and the refresh call fails (rejected fetch or non-ok
status), the call fails with the Authentication failed error after
starting, but not awaiting, a logout, so at the moment the error is
raised the token pair is still stored and the clearing is still
pending; it takes the deferred tail of logout to clear the pair and the
session flag. -/
theorem authenticatedFetch_logout_behaviour
    (st : AuthState) (callerAuth : Option String)
    (refreshNet : Except String (Nat × AuthTokens))
    (retryNet : Except String Nat) :
    (jsTruthy st.store.refreshToken = false →
      (authenticatedFetch st callerAuth (Except.ok 401) refreshNet
        retryNet).result = FetchResult.response 401 ∧
      (authenticatedFetch st callerAuth (Except.ok 401) refreshNet
        retryNet).state = st ∧
      (authenticatedFetch st callerAuth (Except.ok 401) refreshNet
        retryNet).logoutStarted = false) ∧
    (jsTruthy st.store.refreshToken = true →
      (∀ e, refreshNet = Except.error e →
        (authenticatedFetch st callerAuth (Except.ok 401) refreshNet
          retryNet).result = FetchResult.authFailed ∧
        (authenticatedFetch st callerAuth (Except.ok 401) refreshNet
          retryNet).logoutStarted = true ∧
        (authenticatedFetch st callerAuth (Except.ok 401) refreshNet
          retryNet).state.store = st.store ∧
        (authenticatedFetch st callerAuth (Except.ok 401) refreshNet
          retryNet).logoutPending = true ∧
        (logoutFinish (authenticatedFetch st callerAuth (Except.ok 401)
          refreshNet retryNet).state).store.accessToken = none ∧
        (logoutFinish (authenticatedFetch st callerAuth (Except.ok 401)
          refreshNet retryNet).state).store.refreshToken = none) ∧
      (∀ rs tokens, refreshNet = Except.ok (rs, tokens) →
        responseOk rs = false →
        (authenticatedFetch st callerAuth (Except.ok 401) refreshNet
          retryNet).result = FetchResult.authFailed ∧
        (authenticatedFetch st callerAuth (Except.ok 401) refreshNet
          retryNet).logoutStarted = true ∧
        (authenticatedFetch st callerAuth (Except.ok 401) refreshNet
          retryNet).state.store = st.store ∧
        (authenticatedFetch st callerAuth (Except.ok 401) refreshNet
          retryNet).logoutPending = true)) := by
  constructor
  · intro hfalse
    simp only [authenticatedFetch, hfalse, Bool.and_false, Bool.false_eq_true,
      if_false]
    refine ⟨?_, ?_, ?_⟩ <;> trivial
  · intro htrue
    constructor
    · intro e hnet
      subst hnet
      simp only [authenticatedFetch, refreshTokenOp, logoutSyncPart, htrue,
        Bool.and_true, eq_self_iff_true, decide_True, if_true, logoutFinish,
        clearTokens]
      refine ⟨?_, ?_, ?_, ?_, ?_, ?_⟩ <;> trivial
    · intro rs tokens hnet hbad
      subst hnet
      simp only [authenticatedFetch, refreshTokenOp, logoutSyncPart, htrue,
        hbad, Bool.and_true, eq_self_iff_true, decide_True, if_true,
        Bool.false_eq_true, if_false]
      refine ⟨?_, ?_, ?_, ?_⟩ <;> trivial

/-- Witness for the amended C4, exercising the no-refresh-token branch
and the refresh-failure branch at concrete stores. -/
theorem authenticatedFetch_logout_behaviour_witness :
    jsTruthy stAuthNoRefresh.store.refreshToken = false ∧
    (authenticatedFetch stAuthNoRefresh none (Except.ok 401)
      (Except.error "boom") (Except.ok 200)).result
      = FetchResult.response 401 ∧
    jsTruthy stAuthFull.store.refreshToken = true ∧
    (authenticatedFetch stAuthFull none (Except.ok 401)
      (Except.error "boom") (Except.ok 200)).result
      = FetchResult.authFailed ∧
    (authenticatedFetch stAuthFull none (Except.ok 401)
      (Except.error "boom") (Except.ok 200)).state.store
      = stAuthFull.store := by
  have h1 := (authenticatedFetch_logout_behaviour stAuthNoRefresh none
    (Except.error "boom") (Except.ok 200)).1 (by decide)
  have h2 := ((authenticatedFetch_logout_behaviour stAuthFull none
    (Except.error "boom") (Except.ok 200)).2 (by decide)).1 "boom" rfl
  exact ⟨by decide, h1.1, by decide, h2.1, h2.2.2.1⟩
